import Mathlib

/-!
Verification of the numpy-to-VTK/Slicer adapter layer
(`Modules/Scripted/Home/HomeLib/image_utils.py`).

The repository consists of three glue functions:

* `create_image_data_from_numpy_array` — turns a contiguous 2-D numpy
  array into a (possibly oriented) single-slice `vtkImageData`;
* `create_volume_node_from_numpy_array` — wraps the image in a scalar
  volume node and registers it with the MRML scene;
* `create_segmentation_node_from_numpy_array` — builds one binary-mask
  segment per key of a label-to-name mapping and registers the resulting
  segmentation node.

We embed the functions shallowly.  A numpy array is a record holding its
shape, its row-major flattened contents, its dtype and the C-contiguity
flag.  Scalar values are carried as `Int` (exact for the integer dtypes
the segmentation path uses; for floating dtypes the adapter only moves
values around, so the carrier is irrelevant to the proved properties).
The aliasing behaviour of `SetVoidArray` versus `DeepCopy` is made
explicit: a `vtkDataArray` either *owns* a list of values or is a *view*
of the source numpy buffer, and reading its contents takes the current
state of that buffer as an argument.  Python exceptions become an
`Except` error type, and the MRML scene is threaded through the two
node-creating functions as an explicit list of (class name, node name)
registrations, so that "the scene is unchanged on error" is expressible.
-/

/-- Numpy dtypes: the integer and floating scalar dtypes, the complex
dtypes and `character` (the numpy supertype of bytes/string dtypes) —
all of which `vtk.util.numpy_support.get_vtk_array_type` maps into VTK's
type table, though the complex and character ones do not round-trip back
to themselves — plus `object_` standing for a dtype that table has no
entry for at all. -/
inductive NpDtype
  | int8 | uint8 | int16 | uint16 | int32 | uint32 | int64 | uint64
  | float32 | float64
  | complex64 | complex128 | character
  | object_
  deriving DecidableEq

/-- VTK scalar-type enumeration constants (the subset reachable from the
dtypes above, plus `VTK_SIGNED_CHAR` which also maps back to `int8`). -/
inductive VtkType
  | vtk_char | vtk_signed_char | vtk_unsigned_char
  | vtk_short | vtk_unsigned_short
  | vtk_int | vtk_unsigned_int
  | vtk_long_long | vtk_unsigned_long_long
  | vtk_float | vtk_double
  deriving DecidableEq

/-- The numpy-dtype-to-VTK-type mapping of
`vtk.util.numpy_support.get_vtk_array_type`.  The real function raises a
`TypeError` for a dtype outside its table; here that is `none`. -/
def get_vtk_array_type : NpDtype → Option VtkType
  | .uint8 => some .vtk_unsigned_char
  | .uint16 => some .vtk_unsigned_short
  | .uint32 => some .vtk_unsigned_int
  | .uint64 => some .vtk_unsigned_long_long
  | .int8 => some .vtk_char
  | .int16 => some .vtk_short
  | .int32 => some .vtk_int
  | .int64 => some .vtk_long_long
  | .float32 => some .vtk_float
  | .float64 => some .vtk_double
  | .complex64 => some .vtk_float
  | .complex128 => some .vtk_double
  | .character => some .vtk_unsigned_char
  | .object_ => none

/-- The VTK-type-to-numpy-dtype mapping of
`vtk.util.numpy_support.get_numpy_array_type` (via
`get_vtk_to_numpy_typemap`), on the VTK types reachable here. -/
def get_numpy_array_type : VtkType → NpDtype
  | .vtk_char => .int8
  | .vtk_signed_char => .int8
  | .vtk_unsigned_char => .uint8
  | .vtk_short => .int16
  | .vtk_unsigned_short => .uint16
  | .vtk_int => .int32
  | .vtk_unsigned_int => .uint32
  | .vtk_long_long => .int64
  | .vtk_unsigned_long_long => .uint64
  | .vtk_float => .float32
  | .vtk_double => .float64

/-- Model of `np.issubdtype` on the pairs reachable at image_utils.py
line 43, where the second argument is always one of the ten concrete
integer/floating dtypes produced by `get_numpy_array_type`: a concrete
dtype is a subdtype of such a target exactly when it equals it, and the
complex and character dtypes are subdtypes of none of them
(`np.issubdtype(complex64, float32)` is false, as is
`np.issubdtype` of a bytes/string dtype against `uint8`). -/
def np_issubdtype (a b : NpDtype) : Bool := decide (a = b)

/-- Model of a numpy `ndarray`: its shape, its contents flattened in
row-major (C) order, its dtype, and the `flags.c_contiguous` flag. -/
structure NpArray where
  shape : List Nat
  data : List Int
  dtype : NpDtype
  c_contiguous : Bool
  deriving DecidableEq

/-- Tags identifying the two `assert` statements of
`create_image_data_from_numpy_array`: the contiguity check (line 33) and
the scalar-type round-trip check (line 43). -/
inductive AssertTag
  | contiguity
  | scalarTypeRoundtrip
  deriving DecidableEq

/-- Python exceptions the adapter can raise. -/
inductive PyErr
  | valueError (msg : String)
  | typeError (msg : String)
  | assertionError (tag : AssertTag)
  deriving DecidableEq

/-- Backing storage of a `vtkDataArray`: either a view of the source
numpy buffer (the state after `SetVoidArray`) or an owned copy of a list
of values (the state after `DeepCopy`). -/
inductive Storage
  | view
  | owned (vals : List Int)
  deriving DecidableEq

/-- Model of a `vtkDataArray`. -/
structure VtkDataArrayT where
  scalarType : VtkType
  numberOfComponents : Nat
  numberOfTuples : Nat
  storage : Storage
  deriving DecidableEq

/-- The values a `vtkDataArray` currently holds, given the current
contents `src` of the numpy buffer it may be viewing. -/
def VtkDataArrayT.contents (a : VtkDataArrayT) (src : List Int) : List Int :=
  match a.storage with
  | .view => src
  | .owned vals => vals

/-- Model of a `vtkImageData` / `slicer.vtkOrientedImageData`: the
`oriented` flag records which of the two classes was instantiated, and
`directions` is the oriented image's direction matrix once
`SetDirections` has been called (`none` before). -/
structure ImageData where
  oriented : Bool
  dimensions : List Nat
  scalars : VtkDataArrayT
  directions : Option (List (List Rat))
  deriving DecidableEq

/-- Embedding of `create_image_data_from_numpy_array` (image_utils.py
lines 10-63).  The Python default `copy=True` is passed explicitly by
callers here. -/
def create_image_data_from_numpy_array (array : NpArray) (oriented : Bool)
    (copy : Bool) : Except PyErr ImageData :=
  -- if (len(array.shape) != 2): raise ValueError(...)
  if array.shape.length ≠ 2 then
    .error (.valueError ("2D array was expected; got " ++
      toString array.shape.length ++ "D array"))
  else
    -- vtk_type = get_vtk_array_type(array.dtype)  (raises TypeError if unsupported)
    match get_vtk_array_type array.dtype with
    | none => .error (.typeError "Could not find a suitable VTK type")
    | some vtk_type =>
      -- assert(array.flags.c_contiguous)
      if !array.c_contiguous then
        .error (.assertionError .contiguity)
      else
        -- arr_dtype = get_numpy_array_type(vtk_type)
        -- assert(np.issubdtype(array.dtype, arr_dtype) or array.dtype == np.dtype(arr_dtype))
        let arr_dtype := get_numpy_array_type vtk_type
        if !(np_issubdtype array.dtype arr_dtype || decide (array.dtype = arr_dtype)) then
          .error (.assertionError .scalarTypeRoundtrip)
        else
          -- vtk_array = vtk.vtkDataArray.CreateDataArray(vtk_type)
          -- vtk_array.SetNumberOfComponents(1); vtk_array.SetNumberOfTuples(array.size)
          let vtk_array : VtkDataArrayT :=
            { scalarType := vtk_type, numberOfComponents := 1,
              numberOfTuples := array.shape.prod, storage := .owned [] }
          -- array_flat = np.ravel(array): for a C-contiguous array this is a
          -- row-major flat view, i.e. exactly `array.data` in this model.
          let array_flat := array.data
          -- vtk_array.SetVoidArray(array_flat, len(array_flat), 1): the vtk
          -- array now aliases the numpy buffer and holds len(array_flat) values.
          let vtk_array := { vtk_array with
            storage := Storage.view, numberOfTuples := array_flat.length }
          -- if copy: vtk_array = DeepCopy of vtk_array, resolved against the
          -- numpy buffer as it is at this moment, i.e. array_flat.
          let vtk_array := if copy then
            { vtk_array with storage := Storage.owned array_flat }
          else vtk_array
          -- imageData = vtkOrientedImageData() / vtkImageData()
          -- imageData.SetDimensions([array.shape[0], array.shape[1], 1])
          -- imageData.GetPointData().SetScalars(vtk_array)
          .ok { oriented := oriented,
                dimensions := [array.shape.getD 0 0, array.shape.getD 1 0, 1],
                scalars := vtk_array,
                directions := none }

/-- The MRML scene, as the ordered list of (class name, node name) pairs
registered through `slicer.mrmlScene.AddNewNodeByClass`. -/
def Scene := List (String × String)
deriving instance DecidableEq for Scene

/-- Model of `slicer.mrmlScene.AddNewNodeByClass`. -/
def addNewNodeByClass (scene : Scene) (className nodeName : String) : Scene :=
  List.append scene [(className, nodeName)]

/-- Model of a `vtkMRMLScalarVolumeNode` after the setter calls made by
`create_volume_node_from_numpy_array`. -/
structure VolumeNode where
  name : String
  origin : List Rat
  spacing : List Rat
  ijkToRasDirections : List (List Rat)
  imageData : Option ImageData
  displayNodesCreated : Bool
  storageNodeCreated : Bool
  deriving DecidableEq

/-- Embedding of `create_volume_node_from_numpy_array` (image_utils.py
lines 66-89).  The scene is threaded explicitly; the function returns the
outcome together with the scene state after the call. -/
def create_volume_node_from_numpy_array (array : NpArray)
    (ijk_to_ras_directions : List (List Rat)) (node_name : String)
    (scene : Scene) : Except PyErr VolumeNode × Scene :=
  -- imageData = create_image_data_from_numpy_array(array, oriented=False)
  match create_image_data_from_numpy_array array false true with
  | .error e => (.error e, scene)
  | .ok imageData =>
    -- volumeNode = slicer.mrmlScene.AddNewNodeByClass("vtkMRMLScalarVolumeNode", node_name)
    let scene := addNewNodeByClass scene "vtkMRMLScalarVolumeNode" node_name
    -- SetOrigin([0., 0., 0.]); SetSpacing([1., 1., 1.]);
    -- SetIJKToRASDirections(ijk_to_ras_directions);
    -- SetAndObserveImageData(imageData); CreateDefaultDisplayNodes();
    -- CreateDefaultStorageNode() (then UnRegister, a refcount detail)
    let volumeNode : VolumeNode :=
      { name := node_name,
        origin := [0, 0, 0],
        spacing := [1, 1, 1],
        ijkToRasDirections := ijk_to_ras_directions,
        imageData := some imageData,
        displayNodesCreated := true,
        storageNodeCreated := true }
    (.ok volumeNode, scene)

/-- Model of a segment added through
`AddSegmentFromBinaryLabelmapRepresentation`. -/
structure Segment where
  name : String
  labelmap : ImageData
  deriving DecidableEq

/-- Model of a `vtkMRMLSegmentationNode` after the calls made by
`create_segmentation_node_from_numpy_array`. -/
structure SegNode where
  name : String
  referenceVolume : String
  displayNodesCreated : Bool
  segments : List Segment
  deriving DecidableEq

/-- The binary labelmap `(array == class_label).astype('int8')`: a fresh
C-contiguous int8 array of the same shape, holding 1 where `array`
equals the label and 0 elsewhere. -/
def binary_labelmap (array : NpArray) (class_label : Int) : NpArray :=
  { shape := array.shape,
    data := array.data.map (fun v => if v = class_label then 1 else 0),
    dtype := .int8,
    c_contiguous := true }

/-- The loop body of `create_segmentation_node_from_numpy_array`, over
the (label, name) entries of `class_names` in dict insertion order:
build the binary labelmap, convert it to an oriented image, set its
directions, add it as a named segment.  An exception from the conversion
propagates. -/
def add_segments (array : NpArray) (dirs : List (List Rat)) :
    List (Int × String) → Except PyErr (List Segment)
  | [] => .ok []
  | (class_label, segment_name) :: rest =>
    -- binary_labelmap_array = (array == class_label).astype('int8')
    let binary_labelmap_array := binary_labelmap array class_label
    -- orientedImageData = create_image_data_from_numpy_array(binary_labelmap_array, oriented=True)
    match create_image_data_from_numpy_array binary_labelmap_array true true with
    | .error e => .error e
    | .ok orientedImageData =>
      -- orientedImageData.SetDirections(ijk_to_ras_directions)
      let orientedImageData := { orientedImageData with directions := some dirs }
      -- segNode.AddSegmentFromBinaryLabelmapRepresentation(orientedImageData, class_names[class_label])
      match add_segments array dirs rest with
      | .error e => .error e
      | .ok segs => .ok ({ name := segment_name, labelmap := orientedImageData } :: segs)

/-- Embedding of `create_segmentation_node_from_numpy_array`
(image_utils.py lines 92-114).  `class_names` is the dict as an ordered
association list (Python dicts iterate in insertion order, keys unique).
Note the segmentation node is added to the scene before the loop runs,
so the scene registration survives even when a conversion inside the
loop raises. -/
def create_segmentation_node_from_numpy_array (array : NpArray)
    (class_names : List (Int × String)) (node_name : String)
    (vol_node : VolumeNode) (scene : Scene) : Except PyErr SegNode × Scene :=
  -- ijk_to_ras_directions = np.zeros((3, 3)); vol_node.GetIJKToRASDirections(...)
  let ijk_to_ras_directions := vol_node.ijkToRasDirections
  -- segNode = slicer.mrmlScene.AddNewNodeByClass("vtkMRMLSegmentationNode", node_name)
  let scene := addNewNodeByClass scene "vtkMRMLSegmentationNode" node_name
  -- segNode.SetReferenceImageGeometryParameterFromVolumeNode(vol_node)
  -- segNode.CreateDefaultDisplayNodes()
  match add_segments array ijk_to_ras_directions class_names with
  | .error e => (.error e, scene)
  | .ok segs =>
    (.ok { name := node_name,
           referenceVolume := vol_node.name,
           displayNodesCreated := true,
           segments := segs }, scene)

/-- Derived closed form of one iteration of the segment-adding loop of
`create_segmentation_node_from_numpy_array`: the named segment built
from one (label, name) entry of `class_names`.  `add_segments_ok` below
proves that the loop produces exactly these segments. -/
def segOf (array : NpArray) (dirs : List (List Rat)) (p : Int × String) : Segment :=
  { name := p.2,
    labelmap :=
      { oriented := true,
        dimensions := [array.shape.getD 0 0, array.shape.getD 1 0, 1],
        scalars := { scalarType := .vtk_char, numberOfComponents := 1,
                     numberOfTuples := array.data.length,
                     storage := .owned (array.data.map
                       (fun v => if v = p.1 then 1 else 0)) },
        directions := some dirs } }

/-- Whether a result of `create_image_data_from_numpy_array` is a failure
of the scalar-type round-trip assertion (image_utils.py line 43). -/
def isScalarTypeRoundtripError : Except PyErr ImageData → Bool
  | .error (.assertionError .scalarTypeRoundtrip) => true
  | _ => false

/-- Example input: a contiguous 2 x 2 int8 grid. -/
def exGrid : NpArray :=
  { shape := [2, 2], data := [0, 1, 1, 0], dtype := .int8, c_contiguous := true }

/-- Example input: a 1-D array (wrong rank). -/
def exGrid1D : NpArray :=
  { shape := [4], data := [0, 1, 1, 0], dtype := .int8, c_contiguous := true }

/-- Example input: a 2-D float32 grid that is not C-contiguous. -/
def exGridNC : NpArray :=
  { shape := [2, 2], data := [0, 1, 1, 0], dtype := .float32, c_contiguous := false }

/-- Example input: a contiguous 2 x 2 complex64 grid (the data carrier
stands in for the complex values, which the adapter never inspects; the
dtype alone decides the control flow). -/
def exGridC64 : NpArray :=
  { shape := [2, 2], data := [0, 0, 0, 0], dtype := .complex64, c_contiguous := true }

/-- Example direction vectors (the identity orientation). -/
def exDirs : List (List Rat) := [[1, 0, 0], [0, 1, 0], [0, 0, 1]]

/-- The image data `create_image_data_from_numpy_array` produces for
`exGrid` with `oriented := false` and `copy := true`. -/
def exGridImg : ImageData :=
  { oriented := false,
    dimensions := [2, 2, 1],
    scalars := { scalarType := .vtk_char, numberOfComponents := 1,
                 numberOfTuples := 4, storage := .owned [0, 1, 1, 0] },
    directions := none }

/-- Example volume node serving as the reference volume of a
segmentation. -/
def exVol : VolumeNode :=
  { name := "vol",
    origin := [0, 0, 0],
    spacing := [1, 1, 1],
    ijkToRasDirections := exDirs,
    imageData := none,
    displayNodesCreated := true,
    storageNodeCreated := true }

/-- For every dtype whose VTK type maps back to the original dtype, the
`np.issubdtype`-or-equality check of image_utils.py line 43 passes.
(For the complex and character dtypes the round-trip lands on a
different dtype and the check fails; see the C5 counterexample.) -/
theorem dtype_roundtrip_check_holds (d : NpDtype) (v : VtkType)
    (hrt : get_numpy_array_type v = d) :
    (np_issubdtype d (get_numpy_array_type v) || decide (d = get_numpy_array_type v)) = true := by
  simp [hrt, np_issubdtype]

/-- Success path of `create_image_data_from_numpy_array`: on a rank-2,
C-contiguous array whose dtype is supported (it maps to a VTK type that
maps back to it, which holds for all ten integer/floating dtypes and
fails for the complex/character ones), the function returns the
single-slice image, with storage owned when `copy` is set and a view
otherwise. -/
theorem create_image_data_ok (array : NpArray) (oriented copy : Bool) (v : VtkType)
    (h2 : array.shape.length = 2)
    (hv : get_vtk_array_type array.dtype = some v)
    (hrt : get_numpy_array_type v = array.dtype)
    (hc : array.c_contiguous = true) :
    create_image_data_from_numpy_array array oriented copy =
      .ok { oriented := oriented,
            dimensions := [array.shape.getD 0 0, array.shape.getD 1 0, 1],
            scalars := { scalarType := v, numberOfComponents := 1,
                         numberOfTuples := array.data.length,
                         storage := if copy then .owned array.data else .view },
            directions := none } := by
  have hcheck := dtype_roundtrip_check_holds array.dtype v hrt
  simp only [create_image_data_from_numpy_array, h2, hv, hc, hcheck]
  cases copy <;> simp

/-- Rank-check failure path of `create_image_data_from_numpy_array`. -/
theorem create_image_data_rank_error (array : NpArray) (oriented copy : Bool)
    (h : array.shape.length ≠ 2) :
    create_image_data_from_numpy_array array oriented copy =
      .error (.valueError ("2D array was expected; got " ++
        toString array.shape.length ++ "D array")) := by
  unfold create_image_data_from_numpy_array
  rw [if_pos h]

/-- Contiguity-assertion failure path of
`create_image_data_from_numpy_array`. -/
theorem create_image_data_contig_error (array : NpArray) (oriented copy : Bool)
    (v : VtkType) (h2 : array.shape.length = 2)
    (hv : get_vtk_array_type array.dtype = some v)
    (hnc : array.c_contiguous = false) :
    create_image_data_from_numpy_array array oriented copy =
      .error (.assertionError .contiguity) := by
  simp [create_image_data_from_numpy_array, h2, hv, hnc]

/-- Every invalid input (wrong rank, unsupported dtype, or
non-contiguous memory) makes `create_image_data_from_numpy_array` raise
some exception. -/
theorem create_image_data_invalid_input_error (array : NpArray)
    (oriented copy : Bool)
    (h : array.shape.length ≠ 2 ∨ get_vtk_array_type array.dtype = none ∨
      array.c_contiguous = false) :
    ∃ e, create_image_data_from_numpy_array array oriented copy = .error e := by
  by_cases h2 : array.shape.length = 2
  · cases hv : get_vtk_array_type array.dtype with
    | none =>
      refine ⟨.typeError "Could not find a suitable VTK type", ?_⟩
      simp [create_image_data_from_numpy_array, h2, hv]
    | some v =>
      have hnc : array.c_contiguous = false := by
        rcases h with h | h | h
        · exact absurd h2 h
        · rw [hv] at h; cases h
        · exact h
      exact ⟨_, create_image_data_contig_error array oriented copy v h2 hv hnc⟩
  · exact ⟨_, create_image_data_rank_error array oriented copy h2⟩

/-- On a rank-2 label array, the segment-adding loop succeeds and
produces exactly one `segOf` segment per `class_names` entry, in
order. -/
theorem add_segments_ok (array : NpArray) (dirs : List (List Rat))
    (h2 : array.shape.length = 2) :
    ∀ entries : List (Int × String),
      add_segments array dirs entries = .ok (entries.map (segOf array dirs))
  | [] => rfl
  | (class_label, segment_name) :: rest => by
    have hmask := create_image_data_ok (binary_labelmap array class_label) true true
      .vtk_char (by simp [binary_labelmap, h2]) rfl rfl rfl
    simp only [add_segments]
    rw [hmask, add_segments_ok array dirs h2 rest]
    simp [binary_labelmap, segOf]

/-- Success path of `create_segmentation_node_from_numpy_array` on a
rank-2 label array. -/
theorem create_segmentation_ok (array : NpArray)
    (class_names : List (Int × String)) (node_name : String)
    (vol_node : VolumeNode) (scene : Scene)
    (h2 : array.shape.length = 2) :
    create_segmentation_node_from_numpy_array array class_names node_name
      vol_node scene =
      (.ok { name := node_name,
             referenceVolume := vol_node.name,
             displayNodesCreated := true,
             segments := class_names.map (segOf array vol_node.ijkToRasDirections) },
       addNewNodeByClass scene "vtkMRMLSegmentationNode" node_name) := by
  simp only [create_segmentation_node_from_numpy_array]
  rw [add_segments_ok array vol_node.ijkToRasDirections h2 class_names]

/-- C2: for every contiguous 2-D grid of shape (rows, cols) with a
supported scalar dtype, the image object returned by
`create_image_data_from_numpy_array` reports dimensions equal to
[rows, cols, 1]. -/
theorem image_dimensions_rows_cols_one (array : NpArray) (oriented copy : Bool)
    (rows cols : Nat) (hshape : array.shape = [rows, cols])
    (hdtype : ∃ v, get_vtk_array_type array.dtype = some v ∧
      get_numpy_array_type v = array.dtype)
    (hcontig : array.c_contiguous = true) :
    ∃ img, create_image_data_from_numpy_array array oriented copy = .ok img ∧
      img.dimensions = [rows, cols, 1] := by
  obtain ⟨v, hv, hrt⟩ := hdtype
  refine ⟨_, create_image_data_ok array oriented copy v (by simp [hshape]) hv hrt hcontig, ?_⟩
  simp [hshape]

theorem image_dimensions_rows_cols_one_witness :
    ∃ img, create_image_data_from_numpy_array exGrid false true = .ok img ∧
      img.dimensions = [2, 2, 1] :=
  image_dimensions_rows_cols_one exGrid false true 2 2 rfl ⟨.vtk_char, rfl, rfl⟩ rfl

/-- C3: for every valid grid, with the copy option enabled (the Python
default), the contents of the returned image are the grid's values at
call time, independent of any later state `mutated` of the source
buffer — mutating the source grid after the call does not change the
image's contents. -/
theorem copy_isolates_image_from_source (array : NpArray) (oriented : Bool)
    (rows cols : Nat) (v : VtkType) (hshape : array.shape = [rows, cols])
    (hv : get_vtk_array_type array.dtype = some v)
    (hrt : get_numpy_array_type v = array.dtype)
    (hcontig : array.c_contiguous = true) :
    ∃ img, create_image_data_from_numpy_array array oriented true = .ok img ∧
      ∀ mutated : List Int, img.scalars.contents mutated = array.data := by
  refine ⟨_, create_image_data_ok array oriented true v (by simp [hshape]) hv hrt hcontig, ?_⟩
  intro mutated
  simp [VtkDataArrayT.contents]

theorem copy_isolates_image_from_source_witness :
    ∃ img, create_image_data_from_numpy_array exGrid false true = .ok img ∧
      ∀ mutated : List Int, img.scalars.contents mutated = exGrid.data :=
  copy_isolates_image_from_source exGrid false 2 2 .vtk_char rfl rfl rfl rfl

/-- C4: for every input array whose number of dimensions is not exactly
2, `create_image_data_from_numpy_array` fails with the descriptive
`ValueError` and never returns an image object. -/
theorem rank_check_value_error (array : NpArray) (oriented copy : Bool)
    (h : array.shape.length ≠ 2) :
    create_image_data_from_numpy_array array oriented copy =
      .error (.valueError ("2D array was expected; got " ++
        toString array.shape.length ++ "D array")) :=
  create_image_data_rank_error array oriented copy h

theorem rank_check_value_error_witness :
    create_image_data_from_numpy_array exGrid1D false true =
      .error (.valueError ("2D array was expected; got " ++
        toString exGrid1D.shape.length ++ "D array")) :=
  rank_check_value_error exGrid1D false true (by decide)

/-- C5 counterexample: the complex64 dtype maps to a host scalar-type
enumeration value (`VTK_FLOAT`), yet on a contiguous 2-D complex64 grid
the round-trip assertion of image_utils.py line 43 fails:
`get_numpy_array_type(VTK_FLOAT)` is float32, and neither
`np.issubdtype(complex64, float32)` nor dtype equality holds.  So the
assertion does not hold for every dtype that maps to a host enumeration
value. -/
theorem scalar_type_roundtrip_assert_fails_on_complex :
    get_vtk_array_type exGridC64.dtype = some .vtk_float ∧
    create_image_data_from_numpy_array exGridC64 false true =
      .error (.assertionError .scalarTypeRoundtrip) ∧
    isScalarTypeRoundtripError
      (create_image_data_from_numpy_array exGridC64 false true) = true :=
  ⟨rfl, rfl, rfl⟩

/-- C5 (amended): for every 2-D grid whose dtype maps to a host
scalar-type enumeration value that maps back to the original dtype (all
the integer and floating dtypes; the complex and character dtypes map
into the enumeration but do not map back), the internal consistency
assertion of `create_image_data_from_numpy_array` at line 43 never
fails. -/
theorem scalar_type_roundtrip_assert_never_fails (array : NpArray)
    (oriented copy : Bool) (v : VtkType)
    (hv : get_vtk_array_type array.dtype = some v)
    (hrt : get_numpy_array_type v = array.dtype) :
    isScalarTypeRoundtripError
      (create_image_data_from_numpy_array array oriented copy) = false := by
  unfold create_image_data_from_numpy_array
  split
  · rfl
  · split
    · next hv2 => rw [hv] at hv2; cases hv2
    · next v2 hv2 =>
      rw [hv] at hv2
      obtain rfl : v = v2 := Option.some.inj hv2
      have hcheck := dtype_roundtrip_check_holds array.dtype v hrt
      split
      · rfl
      · simp [hcheck, isScalarTypeRoundtripError]

theorem scalar_type_roundtrip_assert_never_fails_witness :
    isScalarTypeRoundtripError
      (create_image_data_from_numpy_array exGrid false true) = false :=
  scalar_type_roundtrip_assert_never_fails exGrid false true .vtk_char rfl rfl

/-- C6: for every 2-D grid with a supported scalar dtype that is not
C-contiguous, `create_image_data_from_numpy_array` fails the contiguity
assertion rather than returning an image object. -/
theorem noncontiguous_assertion_failure (array : NpArray) (oriented copy : Bool)
    (v : VtkType) (h2 : array.shape.length = 2)
    (hv : get_vtk_array_type array.dtype = some v)
    (hnc : array.c_contiguous = false) :
    create_image_data_from_numpy_array array oriented copy =
      .error (.assertionError .contiguity) :=
  create_image_data_contig_error array oriented copy v h2 hv hnc

theorem noncontiguous_assertion_failure_witness :
    create_image_data_from_numpy_array exGridNC true true =
      .error (.assertionError .contiguity) :=
  noncontiguous_assertion_failure exGridNC true true .vtk_float rfl rfl rfl

/-- C8: for every contiguous 2-D grid of shape (rows, cols) with a
supported scalar dtype, the scalar data of the returned image consists
of exactly rows * cols single-component tuples whose values equal the
grid's values flattened in row-major order (`array.data` is exactly that
flattening in this model). -/
theorem image_scalars_preserve_contents (array : NpArray) (oriented copy : Bool)
    (rows cols : Nat) (v : VtkType) (hshape : array.shape = [rows, cols])
    (hwf : array.data.length = rows * cols)
    (hv : get_vtk_array_type array.dtype = some v)
    (hrt : get_numpy_array_type v = array.dtype)
    (hcontig : array.c_contiguous = true) :
    ∃ img, create_image_data_from_numpy_array array oriented copy = .ok img ∧
      img.scalars.numberOfComponents = 1 ∧
      img.scalars.numberOfTuples = rows * cols ∧
      img.scalars.contents array.data = array.data := by
  refine ⟨_, create_image_data_ok array oriented copy v (by simp [hshape]) hv hrt hcontig, ?_, ?_, ?_⟩
  · rfl
  · simpa using hwf
  · cases copy <;> simp [VtkDataArrayT.contents]

theorem image_scalars_preserve_contents_witness :
    ∃ img, create_image_data_from_numpy_array exGrid false true = .ok img ∧
      img.scalars.numberOfComponents = 1 ∧
      img.scalars.numberOfTuples = 2 * 2 ∧
      img.scalars.contents exGrid.data = exGrid.data :=
  image_scalars_preserve_contents exGrid false true 2 2 .vtk_char rfl rfl rfl rfl rfl

/-- C7: for every valid grid and caller-supplied direction vectors, the
volume node returned by `create_volume_node_from_numpy_array` has origin
zero, unit spacing, the caller's direction vectors, the converted
non-oriented image attached as its image data, and default display and
storage companion nodes created; the node is registered in the scene. -/
theorem volume_node_registration_spec (array : NpArray)
    (dirs : List (List Rat)) (node_name : String) (scene : Scene)
    (img : ImageData)
    (hok : create_image_data_from_numpy_array array false true = .ok img) :
    create_volume_node_from_numpy_array array dirs node_name scene =
      (.ok { name := node_name,
             origin := [0, 0, 0],
             spacing := [1, 1, 1],
             ijkToRasDirections := dirs,
             imageData := some img,
             displayNodesCreated := true,
             storageNodeCreated := true },
       addNewNodeByClass scene "vtkMRMLScalarVolumeNode" node_name) := by
  unfold create_volume_node_from_numpy_array
  rw [hok]

theorem volume_node_registration_spec_witness :
    create_volume_node_from_numpy_array exGrid exDirs "volume" [] =
      (.ok { name := "volume",
             origin := [0, 0, 0],
             spacing := [1, 1, 1],
             ijkToRasDirections := exDirs,
             imageData := some exGridImg,
             displayNodesCreated := true,
             storageNodeCreated := true },
       addNewNodeByClass [] "vtkMRMLScalarVolumeNode" "volume") :=
  volume_node_registration_spec exGrid exDirs "volume" [] exGridImg rfl

/-- C10: for every input array that fails validation (rank not 2,
unsupported dtype, or non-contiguous memory),
`create_volume_node_from_numpy_array` raises before any
scene-registration call, so the scene is left unchanged on error. -/
theorem volume_node_error_leaves_scene_unchanged (array : NpArray)
    (dirs : List (List Rat)) (node_name : String) (scene : Scene)
    (h : array.shape.length ≠ 2 ∨ get_vtk_array_type array.dtype = none ∨
      array.c_contiguous = false) :
    (∃ e, (create_volume_node_from_numpy_array array dirs node_name scene).1 =
      .error e) ∧
    (create_volume_node_from_numpy_array array dirs node_name scene).2 = scene := by
  obtain ⟨e, he⟩ := create_image_data_invalid_input_error array false true h
  unfold create_volume_node_from_numpy_array
  rw [he]
  exact ⟨⟨e, rfl⟩, rfl⟩

theorem volume_node_error_leaves_scene_unchanged_witness :
    (∃ e, (create_volume_node_from_numpy_array exGrid1D exDirs "volume"
      [("vtkMRMLScalarVolumeNode", "existing")]).1 = .error e) ∧
    (create_volume_node_from_numpy_array exGrid1D exDirs "volume"
      [("vtkMRMLScalarVolumeNode", "existing")]).2 =
      [("vtkMRMLScalarVolumeNode", "existing")] :=
  volume_node_error_leaves_scene_unchanged exGrid1D exDirs "volume"
    [("vtkMRMLScalarVolumeNode", "existing")] (Or.inl (by decide))

/-- C1: for every contiguous 2-D integer-labeled grid with k distinct
label values and a label-to-name mapping whose keys are exactly those
labels, `create_segmentation_node_from_numpy_array` returns a
segmentation node with exactly k named segments, one per distinct label,
and each segment's binary mask is non-zero only at positions where the
source grid equals that segment's label. -/
theorem segmentation_k_distinct_segments (array : NpArray)
    (class_names : List (Int × String)) (node_name : String)
    (vol_node : VolumeNode) (scene : Scene) (k : Nat)
    (hrank : array.shape.length = 2)
    (_hcontig : array.c_contiguous = true)
    (hkeys : (class_names.map Prod.fst).Perm array.data.dedup)
    (hk : array.data.dedup.length = k) :
    ∃ segNode scene2,
      create_segmentation_node_from_numpy_array array class_names node_name
        vol_node scene = (.ok segNode, scene2) ∧
      segNode.segments.length = k ∧
      ∀ i, i < k →
        ∃ seg entry, segNode.segments[i]? = some seg ∧
          class_names[i]? = some entry ∧
          seg.name = entry.2 ∧
          ∀ (j : Nat) (v m : Int) (buf : List Int), array.data[j]? = some v →
            (seg.labelmap.scalars.contents buf)[j]? = some m →
            m ≠ 0 → v = entry.1 := by
  have hlen : class_names.length = k := by
    have := hkeys.length_eq
    simpa [hk] using this
  refine ⟨_, _, create_segmentation_ok array class_names node_name vol_node scene hrank,
    by simpa using hlen, ?_⟩
  intro i hi
  have hi' : i < class_names.length := by omega
  obtain ⟨entry, hentry⟩ : ∃ entry, class_names[i]? = some entry :=
    ⟨_, List.getElem?_eq_getElem hi'⟩
  refine ⟨segOf array vol_node.ijkToRasDirections entry, entry, ?_, hentry, rfl, ?_⟩
  · show (class_names.map (segOf array vol_node.ijkToRasDirections))[i]? = _
    rw [List.getElem?_map, hentry, Option.map_some']
  · intro j v m buf hv hm hm0
    have hmask : (segOf array vol_node.ijkToRasDirections entry).labelmap.scalars.contents buf =
        array.data.map (fun x => if x = entry.1 then 1 else 0) := rfl
    rw [hmask, List.getElem?_map, hv, Option.map_some', Option.some.injEq] at hm
    by_contra hne
    rw [if_neg hne] at hm
    exact hm0 hm.symm

theorem segmentation_k_distinct_segments_witness :
    ∃ segNode scene2,
      create_segmentation_node_from_numpy_array exGrid
        [(0, "background"), (1, "lung")] "seg" exVol [] = (.ok segNode, scene2) ∧
      segNode.segments.length = 2 ∧
      ∀ i, i < 2 →
        ∃ seg entry, segNode.segments[i]? = some seg ∧
          [(0, "background"), (1, "lung")][i]? = some entry ∧
          seg.name = entry.2 ∧
          ∀ (j : Nat) (v m : Int) (buf : List Int), exGrid.data[j]? = some v →
            (seg.labelmap.scalars.contents buf)[j]? = some m →
            m ≠ 0 → v = entry.1 :=
  segmentation_k_distinct_segments exGrid [(0, "background"), (1, "lung")] "seg"
    exVol [] 2 (by decide) rfl (by decide) (by decide)

/-- C9: for every label-to-name mapping,
`create_segmentation_node_from_numpy_array` adds exactly one segment per
mapping entry, in the mapping's iteration order, regardless of whether
the entry's key occurs in the grid; a key absent from the grid yields a
segment whose mask is all zeros. -/
theorem segmentation_one_segment_per_key (array : NpArray)
    (class_names : List (Int × String)) (node_name : String)
    (vol_node : VolumeNode) (scene : Scene)
    (hrank : array.shape.length = 2) :
    ∃ segNode scene2,
      create_segmentation_node_from_numpy_array array class_names node_name
        vol_node scene = (.ok segNode, scene2) ∧
      segNode.segments.length = class_names.length ∧
      ∀ i, i < class_names.length →
        ∃ seg entry, segNode.segments[i]? = some seg ∧
          class_names[i]? = some entry ∧
          seg.name = entry.2 ∧
          (entry.1 ∉ array.data →
            ∀ buf : List Int, seg.labelmap.scalars.contents buf =
              List.replicate array.data.length 0) := by
  refine ⟨_, _, create_segmentation_ok array class_names node_name vol_node scene hrank,
    by simp, ?_⟩
  intro i hi
  obtain ⟨entry, hentry⟩ : ∃ entry, class_names[i]? = some entry :=
    ⟨_, List.getElem?_eq_getElem hi⟩
  refine ⟨segOf array vol_node.ijkToRasDirections entry, entry, ?_, hentry, rfl, ?_⟩
  · show (class_names.map (segOf array vol_node.ijkToRasDirections))[i]? = _
    rw [List.getElem?_map, hentry, Option.map_some']
  · intro hnotin buf
    have hmask : (segOf array vol_node.ijkToRasDirections entry).labelmap.scalars.contents buf =
        array.data.map (fun x => if x = entry.1 then 1 else 0) := rfl
    rw [hmask, List.eq_replicate_iff]
    refine ⟨by simp, ?_⟩
    intro b hb
    obtain ⟨x, hx, rfl⟩ := List.mem_map.1 hb
    have hne : x ≠ entry.1 := fun h => hnotin (h ▸ hx)
    simp [hne]

theorem segmentation_one_segment_per_key_witness :
    ∃ segNode scene2,
      create_segmentation_node_from_numpy_array exGrid
        [(0, "background"), (1, "lung"), (7, "ghost")] "seg" exVol [] =
        (.ok segNode, scene2) ∧
      segNode.segments.length = [(0, "background"), (1, "lung"), (7, "ghost")].length ∧
      ∀ i, i < [(0, "background"), (1, "lung"), (7, "ghost")].length →
        ∃ seg entry, segNode.segments[i]? = some seg ∧
          [(0, "background"), (1, "lung"), (7, "ghost")][i]? = some entry ∧
          seg.name = entry.2 ∧
          (entry.1 ∉ exGrid.data →
            ∀ buf : List Int, seg.labelmap.scalars.contents buf =
              List.replicate exGrid.data.length 0) :=
  segmentation_one_segment_per_key exGrid
    [(0, "background"), (1, "lung"), (7, "ghost")] "seg" exVol [] (by decide)
